import Mathlib

/-!
# Confantic core: shallow embedding and verification

This file embeds the core of the `confantic` repository in Lean 4 and proves
properties of it:

* `src/confantic/lib.py` — default synthesis (`get_default`,
  `get_field_default`, `get_model_default`) and type-signature rendering
  (`render_type_name`);
* `src/confantic/editor.py` — validation-error formatting
  (`Editor.format_validation_errors`).

Modelling conventions:

* Python values (the outputs of default synthesis) are the inductive `Value`.
  Python `None` is `Value.none`.  Floats are not needed by any property below
  and are omitted.
* Python runtime type objects — the inputs of `get_default` and
  `render_type_name` — are the inductive `TypeDesc`.  The `typing` /
  `typing_inspect` predicates used by the source (`is_literal_type`,
  `is_optional_type`, `is_union_type`, `is_typevar`, `is_generic_type`,
  `is_tuple_type`, `try_issubclass(_, BaseModel)`, `isinstance(_, TypeAdapter)`)
  are each determined by the head constructor, except `is_optional_type`,
  which on a union checks for a `NoneType` member.
* A Python exception is `Exn`: the source distinguishes only `TypeError`
  (`except TypeError:` in `get_default`) from every other exception, so two
  constructors suffice.  A Python function that may raise is embedded as
  returning `Except Exn Value`; `.error e` means "raises e".
* The zero-argument construction behaviour of an unstructured class
  (`annotation()` at lib.py:182) is part of the class object itself, so the
  `TypeDesc.cls` constructor carries it as data: `.cls name c` is a plain
  class named `name` whose zero-argument call returns/raises `c`.
-/

namespace Confantic

/-- A Python exception, as coarse as the source distinguishes them:
`get_default` (lib.py:183) catches exactly `TypeError`; the bare `except:` in
`build_dict` (lib.py:219) catches everything. -/
inductive Exn where
  | typeError
  | otherError
deriving DecidableEq, Repr

/-- A Python value, as produced by default synthesis.  `none` is Python
`None`.  Dictionaries built by `build_dict` are keyed by field names, so
`dict` entries pair a `String` with a `Value`.  `obj n` is an otherwise
unstructured instance of the class named `n`. -/
inductive Value where
  | none
  | bool (b : Bool)
  | int (n : Int)
  | str (s : String)
  | list (xs : List Value)
  | tuple (xs : List Value)
  | set (xs : List Value)
  | dict (xs : List (String × Value))
  | obj (clsName : String)
deriving Repr

mutual
/-- A Python runtime type object, covering every shape the source
dispatches on.

* `baseModel name fields` — a `pydantic.BaseModel` subclass with its
  `model_fields` (an ordered mapping, hence a list).
* `adapter inner` — a `pydantic.TypeAdapter` instance wrapping `inner`
  (its `_type` attribute).
* `literalT vals` — `typing.Literal[vals...]`.
* `tupleT elems` — a tuple-shaped annotation `typing.Tuple[elems...]`
  (`is_tuple_type` is true for it, `typing.get_origin` is the builtin
  `tuple` class, and calling it raises `TypeError`).
* `unionT members` — a union; `typing.get_args` returns `members` in
  declared order.  An `Optional` is a union with a `NoneType` member.
* `typevarT name constraints bound` — a `TypeVar` with its constraints and
  optional bound.
* `noneT` — `type(None)` (`NoneType`).
* `cls name c` — any other plain class: `name` is its `__name__`, and `c`
  is the outcome of calling it with zero arguments.
* `genericAlias origin args` — a parameterized generic such as
  `typing.List[int]` (`is_generic_type` is true; attribute access such as
  `__name__`, and a zero-argument call, forward to `origin`).
* `unknown` — an annotation with no recognized structure, no `__origin__`
  and no `__name__`. -/
inductive TypeDesc where
  | baseModel (name : String) (fields : List Field)
  | adapter (inner : TypeDesc)
  | literalT (vals : List Value)
  | tupleT (elems : List TypeDesc)
  | unionT (members : List TypeDesc)
  | typevarT (name : String) (constraints : List TypeDesc) (bound : Option TypeDesc)
  | noneT
  | cls (name : String) (construct : Except Exn Value)
  | genericAlias (origin : TypeDesc) (args : List TypeDesc)
  | unknown

/-- A pydantic field: its name (the key in `model_fields`), its annotation
(`None` when absent, lib.py:199), and its declared default.
`declaredDefault = Option.none` models the "no default" sentinels
(`inspect._empty` / `PydanticUndefined`, lib.py:196); `some v` models a
declared default `v` — possibly `some Value.none`, a declared `None`. -/
inductive Field where
  | mk (name : String) (ann : Option TypeDesc) (declaredDefault : Option Value)
end

/-- Field name accessor. -/
def Field.name : Field → String
  | .mk n _ _ => n

/-- Field annotation accessor (`FieldInfo.annotation`). -/
def Field.annOf : Field → Option TypeDesc
  | .mk _ a _ => a

/-- `FieldInfo.get_default()` combined with the sentinel check of
lib.py:195-196: `Option.none` means the default was `inspect._empty` or
`PydanticUndefined`. -/
def Field.getDeclaredDefault : Field → Option Value
  | .mk _ _ d => d

mutual
/-- Termination measure for the synthesis functions.  Every class object
(`cls`) weighs 1 irrespective of its payload, and a tuple-shaped type weighs
at least 2, so that the fallback from `typing.Tuple[...]` to its origin
class `tuple` (lib.py:184-186) strictly descends. -/
def TypeDesc.weight : TypeDesc → Nat
  | .baseModel _ fs => 2 + Field.weightList fs
  | .adapter t => 1 + t.weight
  | .literalT _ => 1
  | .tupleT es => 2 + TypeDesc.weightList es
  | .unionT ms => 1 + TypeDesc.weightList ms
  | .typevarT _ cs b => 1 + TypeDesc.weightList cs + TypeDesc.optWeight b
  | .noneT => 1
  | .cls _ _ => 1
  | .genericAlias o args => 1 + o.weight + TypeDesc.weightList args
  | .unknown => 1

/-- Weight of an optional type descriptor. -/
def TypeDesc.optWeight : Option TypeDesc → Nat
  | some t => 1 + t.weight
  | none => 0

/-- Sum of weights of a list of type descriptors (strictly larger than each
member and each tail). -/
def TypeDesc.weightList : List TypeDesc → Nat
  | [] => 0
  | t :: rest => 1 + t.weight + TypeDesc.weightList rest

/-- Weight of a field: strictly larger than its annotation's weight. -/
def Field.weight : Field → Nat
  | .mk _ ann _ => 1 + TypeDesc.optWeight ann

/-- Sum of weights of a field list. -/
def Field.weightList : List Field → Nat
  | [] => 0
  | f :: rest => 1 + f.weight + Field.weightList rest
end

/-- `typing_inspect.is_optional_type`: true for `NoneType` itself and for a
union having a `NoneType` member.  The member scan is written as its own
Boolean recursion so that it computes. -/
def containsNoneType : List TypeDesc → Bool
  | [] => false
  | .noneT :: _ => true
  | _ :: rest => containsNoneType rest

/-- Zero-argument call of a type object, `annotation()` at lib.py:182.

* A tuple-shaped `typing.Tuple[...]` cannot be instantiated (`TypeError`).
* Subscripted unions, `Literal[...]`, `TypeVar`s and `TypeAdapter`
  instances are not zero-argument callable either (`TypeError`) — all of
  these are unreachable from `get_default`, which handles them earlier.
* `NoneType()` evaluates to `None`.
* A plain class returns or raises whatever its constructor does (the data
  carried by the constructor).
* Calling a parameterized generic alias forwards to its origin
  (`list[int]()` is `list()`).
* A `BaseModel` subclass called with no arguments raises a pydantic
  `ValidationError` when it has required fields (never consulted:
  `get_default` dispatches models to `get_model_default` first). -/
def tryCall : TypeDesc → Except Exn Value
  | .baseModel _ _ => .error .otherError
  | .adapter _ => .error .typeError
  | .literalT _ => .error .typeError
  | .tupleT _ => .error .typeError
  | .unionT _ => .error .typeError
  | .typevarT _ _ _ => .error .typeError
  | .noneT => .ok .none
  | .cls _ c => c
  | .genericAlias o _ => tryCall o
  | .unknown => .error .typeError

/-- The builtin `tuple` class: `typing.get_origin(typing.Tuple[...])`.
Calling it with zero arguments yields the empty tuple `()`. -/
def tupleOrigin : TypeDesc := .cls "tuple" (.ok (.tuple []))

/-- Catch-all of the per-field `try/except` in `build_dict`
(lib.py:214-220): an exception while synthesising one field's default is
swallowed and the field's value becomes `None`. -/
def catchToNone : Except Exn Value → Value
  | .ok v => v
  | .error _ => Value.none

mutual
/-- lib.py:149-187, `get_default(annotation)`.  Each arm corresponds to the
branch of the source's `if`-chain that fires for that head constructor; the
chain order only matters for unions, where `is_optional_type`
(lib.py:162-163) is tested before `is_union_type` (lib.py:173-179). -/
def get_default (d : TypeDesc) : Except Exn Value :=
  match d with
  | .baseModel n fs => get_model_default (.baseModel n fs)
  | .adapter t => get_model_default (.adapter t)
  | .literalT vals => .ok (vals.headD .none)
  | .noneT => .ok .none
  | .typevarT _ cs bound =>
      match firstNonNoneLoop cs with
      | .error e => .error e
      | .ok (some v) => .ok v
      | .ok none =>
          match bound with
          | some b => get_default b
          | none => .ok .none
  | .unionT ms =>
      if containsNoneType ms then .ok .none
      else
        match firstNonNoneLoop ms with
        | .error e => .error e
        | .ok (some v) => .ok v
        | .ok none => .ok .none
  | .tupleT es =>
      match tryCall (.tupleT es) with
      | .ok v => .ok v
      | .error .typeError => get_default tupleOrigin
      | .error e => .error e
  | .genericAlias o args =>
      match tryCall (.genericAlias o args) with
      | .ok v => .ok v
      | .error .typeError => get_default o
      | .error e => .error e
  | .cls n c =>
      match tryCall (.cls n c) with
      | .ok v => .ok v
      | .error .typeError => .ok .none
      | .error e => .error e
  | .unknown =>
      match tryCall .unknown with
      | .ok v => .ok v
      | .error .typeError => .ok .none
      | .error e => .error e
termination_by 4 * d.weight + 3
decreasing_by
  all_goals simp_wf
  all_goals
    try simp [TypeDesc.weight, TypeDesc.optWeight, TypeDesc.weightList, Field.weight, Field.weightList,
      tupleOrigin]
  all_goals omega

/-- The member scan shared by the `is_typevar` (lib.py:166-169) and
`is_union_type` (lib.py:174-177) branches: evaluate members left to right,
return the first default that is not `None` (`.ok (some v)`), report loop
completion (`.ok none`), and propagate any exception. -/
def firstNonNoneLoop (ms : List TypeDesc) : Except Exn (Option Value) :=
  match ms with
  | [] => .ok none
  | a :: rest =>
      match get_default a with
      | .error e => .error e
      | .ok v =>
          match v with
          | .none => firstNonNoneLoop rest
          | v => .ok (some v)
termination_by 4 * TypeDesc.weightList ms
decreasing_by
  all_goals simp_wf
  all_goals
    try simp [TypeDesc.weight, TypeDesc.optWeight, TypeDesc.weightList, Field.weight, Field.weightList,
      tupleOrigin]
  all_goals omega

/-- lib.py:190-202, `get_field_default(field)`: a declared default (when not
the undefined sentinel) is returned verbatim; with no annotation the result
is `None`; otherwise defer to `get_default`. -/
def get_field_default (f : Field) : Except Exn Value :=
  match f with
  | .mk _ _ (some v) => .ok v
  | .mk _ (some ann) none => get_default ann
  | .mk _ none none => .ok .none
termination_by 4 * f.weight
decreasing_by
  all_goals simp_wf
  all_goals
    try simp [TypeDesc.weight, TypeDesc.optWeight, TypeDesc.weightList, Field.weight, Field.weightList,
      Field.getDeclaredDefault, tupleOrigin]
  all_goals omega

/-- lib.py:205-223, `get_model_default(model_class)`: delegates to the inner
`build_dict`. -/
def get_model_default (d : TypeDesc) : Except Exn Value :=
  build_dict d
termination_by 4 * d.weight + 2
decreasing_by
  all_goals simp_wf

/-- lib.py:208-221, the inner `build_dict(model)`: a `TypeAdapter` is
unwrapped to `get_default(model._type)` (unprotected); a model class builds
the per-field dictionary; anything else would fail on `model.model_fields`
(an `AttributeError`, which is not a `TypeError`) — unreachable from
`get_default`. -/
def build_dict (d : TypeDesc) : Except Exn Value :=
  match d with
  | .adapter t => get_default t
  | .baseModel _ fs => .ok (.dict (buildFields fs))
  | _ => .error .otherError
termination_by 4 * d.weight + 1
decreasing_by
  all_goals simp_wf
  all_goals
    try simp [TypeDesc.weight, TypeDesc.optWeight, TypeDesc.weightList, Field.weight, Field.weightList,
      tupleOrigin]
  all_goals omega

/-- The `for name, field in model.model_fields.items()` loop of
lib.py:213-220: one entry per field, in declared order; the try-body is
`fieldSynthesis` and the bare `except:` turns any failure into `None`. -/
def buildFields (fs : List Field) : List (String × Value) :=
  match fs with
  | [] => []
  | f :: rest => (f.name, catchToNone (fieldSynthesis f)) :: buildFields rest
termination_by 4 * Field.weightList fs
decreasing_by
  all_goals simp_wf
  all_goals
    try simp [TypeDesc.weight, TypeDesc.optWeight, TypeDesc.weightList, Field.weight, Field.weightList,
      tupleOrigin]
  all_goals omega

/-- The body of the per-field `try` in `build_dict` (lib.py:215-218): a
field annotated with a `BaseModel` subclass is recursed into with
`build_dict` — before any declared default is consulted — and every other
field goes through `get_field_default`. -/
def fieldSynthesis (f : Field) : Except Exn Value :=
  match f with
  | .mk _ (some (.baseModel m g)) _ =>
      -- try_issubclass(field.annotation, BaseModel) holds: build_dict(field.annotation)
      build_dict (.baseModel m g)
  | f => get_field_default f
termination_by 4 * f.weight + 1
decreasing_by
  all_goals simp_wf
  all_goals
    try simp [TypeDesc.weight, TypeDesc.optWeight, TypeDesc.weightList, Field.weight, Field.weightList,
      tupleOrigin]
  all_goals omega
end


/-! ## Python `repr` of values (used by the `Literal` branch of the renderer) -/

/-- Python's `sep.join(parts)`: parts concatenated with `sep` between
consecutive parts.  (Defined by structural recursion so that concrete
instances compute.) -/
def pyJoin (sep : String) : List String → String
  | [] => ""
  | [x] => x
  | x :: rest => x ++ sep ++ pyJoin sep rest

mutual
/-- Python `repr(v)` for the values of our model, used at lib.py:109
(`", ".join(repr(v) for v in get_literal_values(typ))`).  String escaping
inside `repr` of a text literal, and the memory address in the default
`repr` of a plain object, are elided; no property below depends on them. -/
def pyRepr : Value → String
  | .none => "None"
  | .bool b => if b then "True" else "False"
  | .int n => toString n
  | .str s => "'" ++ s ++ "'"
  | .list xs => "[" ++ pyJoin ", " (pyReprList xs) ++ "]"
  | .tuple xs =>
      -- a singleton tuple prints with a trailing comma: ("x",)
      "(" ++ pyJoin ", " (pyReprList xs)
          ++ (if xs.length = 1 then ",)" else ")")
  | .set xs =>
      if xs.isEmpty then "set()"
      else "\x7b" ++ pyJoin ", " (pyReprList xs) ++ "\x7d"
  | .dict xs => "\x7b" ++ pyJoin ", " (pyReprDict xs) ++ "\x7d"
  | .obj n => "<" ++ n ++ " object>"

/-- `repr` of each element of a list of values. -/
def pyReprList : List Value → List String
  | [] => []
  | v :: rest => pyRepr v :: pyReprList rest

/-- `repr` of each `key: value` entry of a dictionary. -/
def pyReprDict : List (String × Value) → List String
  | [] => []
  | (k, v) :: rest => ("'" ++ k ++ "': " ++ pyRepr v) :: pyReprDict rest
end

/-! ## The type renderer, lib.py:101-139 -/

/-- lib.py:116: `non_none = args[0] if args[1] is type(None) else args[1]` —
the argument of an optional type that is displayed before the `?`. -/
def nonNoneArg (a b : TypeDesc) : TypeDesc :=
  match b with
  | .noneT => a
  | _ => b

mutual
/-- lib.py:101-139, `render_type_name(typ)`.  Each arm is the first branch
of the source's `if`-chain that fires for that head constructor:

* a `BaseModel` subclass renders as its class name (lib.py:102-103);
* a `TypeAdapter` renders its `_type` (lib.py:105-106);
* a `Literal` joins the `repr`s of its values (lib.py:108-109);
* a tuple-shaped type parenthesizes its rendered arguments (lib.py:111-112);
* an optional type — a union with a `NoneType` member — renders the first
  non-`None` of its first two arguments followed by `?` (lib.py:114-117);
  this branch is tested before the general union branch;
* any other union joins its rendered members with `" | "` (lib.py:119-120);
* a parameterized generic renders `origin[args...]`, or just the origin
  when it has no arguments (lib.py:122-128);
* `NoneType` renders as `"None"` (lib.py:129-130);
* whatever else exposes a `__name__` renders as that name
  (lib.py:136-137) — plain classes and `TypeVar`s land here (their
  `typing.get_origin` is `None`, so the lib.py:132-134 fallback passes);
* everything else renders as `"Unknown"` (lib.py:139).

A union with fewer than two arguments cannot be built by the Python
runtime, so the optional branch's `args[1]` never fails; our total model
sends that dead case to the union join. -/
def render_type_name (d : TypeDesc) : String :=
  match d with
  | .baseModel name _ => name
  | .adapter t => render_type_name t
  | .literalT vals => pyJoin ", " (pyReprList vals)
  | .tupleT elems => "(" ++ pyJoin ", " (renderList elems) ++ ")"
  | .unionT ms =>
      if containsNoneType ms then
        match ms with
        | [] => pyJoin " | " (renderList [])
        | [a] => render_type_name (nonNoneArg a a) ++ "?"
        | a :: b :: _ => render_type_name (nonNoneArg a b) ++ "?"
      else pyJoin " | " (renderList ms)
  | .genericAlias o args =>
      if args.isEmpty then render_type_name o
      else render_type_name o ++ "[" ++ pyJoin ", " (renderList args) ++ "]"
  | .noneT => "None"
  | .typevarT name _ _ => name
  | .cls name _ => name
  | .unknown => "Unknown"
termination_by d.weight
decreasing_by
  all_goals simp_wf
  all_goals
    try simp [TypeDesc.weight, TypeDesc.optWeight, TypeDesc.weightList]
  all_goals try omega
  all_goals
    first
    | (cases b <;>
        simp [nonNoneArg, TypeDesc.weight, TypeDesc.weightList] <;> omega)
    | (cases a <;>
        simp [nonNoneArg, TypeDesc.weight, TypeDesc.weightList] <;> omega)

/-- Renders of each member of a list of type descriptors, in order. -/
def renderList (ts : List TypeDesc) : List String :=
  match ts with
  | [] => []
  | t :: rest => render_type_name t :: renderList rest
termination_by TypeDesc.weightList ts
decreasing_by
  all_goals simp_wf
  all_goals
    try simp [TypeDesc.weight, TypeDesc.optWeight, TypeDesc.weightList]
  all_goals omega
end

/-! ## The validation-error formatter, editor.py:100-116 -/

/-- Whether the annotation object has a `__name__` attribute
(editor.py:114).  Classes, `BaseModel` subclasses, `TypeVar`s and
`NoneType` do; a parameterized generic forwards attribute access to its
origin (`typing.List[int].__name__` is `"list"`, `typing.Tuple[...]`
forwards to `tuple`); union objects, `Literal[...]`, `TypeAdapter`
instances and unrecognized objects do not. -/
def hasDunderName : TypeDesc → Bool
  | .baseModel _ _ => true
  | .adapter _ => false
  | .literalT _ => false
  | .tupleT _ => true
  | .unionT _ => false
  | .typevarT _ _ _ => true
  | .noneT => true
  | .cls _ _ => true
  | .genericAlias o _ => hasDunderName o
  | .unknown => false

/-- The `__name__` attribute where it exists (`""` where `hasDunderName`
is false; that value is never consulted). -/
def dunderName : TypeDesc → String
  | .baseModel n _ => n
  | .tupleT _ => "tuple"
  | .typevarT n _ _ => n
  | .noneT => "NoneType"
  | .cls n _ => n
  | .genericAlias o _ => dunderName o
  | _ => ""

mutual
/-- Python `str(typ)` for annotation objects, the f-string fallback of
editor.py:114 for annotations without a `__name__`.  Best-effort model of
CPython's rendering (module qualifiers and memory addresses elided); no
property below depends on these strings, only on the fact that they are
what the formatter uses instead of `render_type_name`. -/
def pyStrType : TypeDesc → String
  | .unionT ms => pyJoin " | " (pyStrMembers ms)
  | .literalT vals => "typing.Literal[" ++ pyJoin ", " (pyReprList vals) ++ "]"
  | .adapter _ => "<TypeAdapter object>"
  | .unknown => "<object>"
  | d => "<class '" ++ dunderName d ++ "'>"

/-- `str` of each member of a union, as CPython shows them: by name when
they have one. -/
def pyStrMembers : List TypeDesc → List String
  | [] => []
  | .noneT :: rest => "None" :: pyStrMembers rest
  | m :: rest =>
      (if hasDunderName m then dunderName m else pyStrType m) :: pyStrMembers rest
end

/-- editor.py:113-114: the expected-type text spliced into an enriched
message — `expected_type.__name__` when the attribute exists, otherwise
the annotation object itself interpolated into the f-string (its `str`).
A `None` annotation prints as `"None"`. -/
def expectedTypeDisplay : Option TypeDesc → String
  | none => "None"
  | some d => if hasDunderName d then dunderName d else pyStrType d

/-- One segment of a validation failure's location (`loc`): a field name
or a sequence index. -/
inductive Loc where
  | field (s : String)
  | index (n : Int)
deriving Repr, DecidableEq

/-- `str(x)` for a location segment (editor.py:105). -/
def locSegStr : Loc → String
  | .field s => s
  | .index n => toString n

/-- One structured validation failure as produced by
`pydantic.ValidationError.errors()`: its `loc`, `msg` and `type` entries
(editor.py:104-107). -/
structure PyError where
  loc : List Loc
  msg : String
  typ : String
deriving Repr, DecidableEq

/-- `model_fields.get(loc[0])` at editor.py:111: `__fields__` maps field
names to fields, so an integer first segment never matches. -/
def lookupLoc (modelFields : List Field) : Loc → Option Field
  | .field s => modelFields.find? (fun f => f.name == s)
  | .index _ => Option.none

/-- The loop body of editor.py:103-115: format one failure as
`"- <dotted loc>: <msg> [<type>]"`, enriching the message with the
expected type when the failure is a `"missing"` with a non-empty location
whose first segment resolves to a top-level field. -/
def formatLine (modelFields : List Field) (e : PyError) : String :=
  let locStr := pyJoin "." (e.loc.map locSegStr)
  let msg := e.msg
  let msg :=
    match e.loc with
    | l0 :: _ =>
        if e.typ = "missing" then
          match lookupLoc modelFields l0 with
          | some f => msg ++ " (expected type: " ++ expectedTypeDisplay f.annOf ++ ")"
          | none => msg
        else msg
    | [] => msg
  "- " ++ locStr ++ ": " ++ msg ++ " [" ++ e.typ ++ "]"

/-- The `lines` accumulator of editor.py:101-115: one appended line per
failure, in the order received. -/
def buildLines (modelFields : List Field) : List PyError → List String
  | [] => []
  | e :: rest => formatLine modelFields e :: buildLines modelFields rest

/-- `getattr(self.model, "__fields__", {})` at editor.py:102: a model
class exposes its field mapping; a `TypeAdapter` (or anything else) has no
`__fields__`, so the default `{}` is used. -/
def dunderFields : TypeDesc → List Field
  | .baseModel _ fs => fs
  | _ => []

/-- editor.py:100-116, `Editor.format_validation_errors`: format every
failure and join the lines with newlines. -/
def format_validation_errors (model : TypeDesc) (errs : List PyError) : String :=
  pyJoin "\n" (buildLines (dunderFields model) errs)

/-! ## Builtin classes, as zero-argument-constructible class objects -/

/-- The builtin `str` class: `str()` is `""`. -/
def strCls : TypeDesc := .cls "str" (.ok (.str ""))

/-- The builtin `int` class: `int()` is `0`. -/
def intCls : TypeDesc := .cls "int" (.ok (.int 0))

/-- The builtin `bool` class: `bool()` is `False`. -/
def boolCls : TypeDesc := .cls "bool" (.ok (.bool false))

/-- The builtin `list` class: `list()` is `[]`. -/
def listCls : TypeDesc := .cls "list" (.ok (.list []))

/-- The builtin `dict` class: `dict()` is the empty dict. -/
def dictCls : TypeDesc := .cls "dict" (.ok (.dict []))

/-- The builtin `set` class: `set()` is the empty set. -/
def setCls : TypeDesc := .cls "set" (.ok (.set []))


/-! ## Sanity checks

Concrete evaluations mirroring the repository's own test suites
(`tests/test_defaults.py`, `tests/test_render_type_name.py`). -/

example : get_default strCls = .ok (.str "") := by
  simp [get_default, strCls, tryCall]

example : get_default (.unionT [strCls, intCls]) = .ok (.str "") := by
  simp [get_default, firstNonNoneLoop, strCls, intCls, tryCall, containsNoneType]

example : get_default (.unionT [strCls, .noneT]) = .ok Value.none := by
  simp [get_default, containsNoneType]

example : get_default (.tupleT [strCls, intCls]) = .ok (.tuple []) := by
  simp [get_default, tryCall, tupleOrigin]

example :
    get_model_default (.baseModel "OuterModel"
      [.mk "outer_string" (some strCls) Option.none,
       .mk "inner_model"
         (some (.baseModel "InnerModel"
           [.mk "inner_string" (some strCls) Option.none,
            .mk "inner_number" (some intCls) (some (.int 42))]))
         Option.none])
    = .ok (.dict
        [("outer_string", .str ""),
         ("inner_model", .dict
            [("inner_string", .str ""), ("inner_number", .int 42)])]) := by
  simp [get_model_default, build_dict, buildFields, fieldSynthesis,
    get_field_default, Field.getDeclaredDefault, Field.name, catchToNone,
    get_default, strCls, intCls, tryCall]

example : render_type_name (.genericAlias listCls [intCls]) = "list[int]" := by
  simp [render_type_name, renderList, listCls, intCls, pyJoin]

example : render_type_name (.unionT [intCls, .noneT]) = "int?" := by
  simp [render_type_name, containsNoneType, nonNoneArg, intCls]

example : render_type_name (.tupleT [intCls, strCls]) = "(int, str)" := by
  simp [render_type_name, renderList, intCls, strCls, pyJoin]

/-! ## Helper lemmas shared by several claims -/

/-- Unfolding of the per-field loop of `build_dict` as a `List.map`. -/
theorem buildFields_eq_map (fs : List Field) :
    buildFields fs = fs.map (fun f => (f.name, catchToNone (fieldSynthesis f))) := by
  induction fs with
  | nil => simp [buildFields]
  | cons f rest ih => simp [buildFields, ih]

/-- Members whose defaults compute to `None` are skipped by the
first-non-`None` scan. -/
theorem firstNonNoneLoop_append_skipped (ms : List TypeDesc) (rest : List TypeDesc)
    (h : ∀ x ∈ ms, get_default x = .ok Value.none) :
    firstNonNoneLoop (ms ++ rest) = firstNonNoneLoop rest := by
  induction ms with
  | nil => simp
  | cons a t ih =>
      have ha : get_default a = .ok Value.none := h a (by simp)
      have ht : ∀ x ∈ t, get_default x = .ok Value.none := by
        intro x hx; exact h x (by simp [hx])
      simp [firstNonNoneLoop, ha, ih ht]

/-- The scan reports completion when every member's default is `None`. -/
theorem firstNonNoneLoop_all_none (ms : List TypeDesc)
    (h : ∀ x ∈ ms, get_default x = .ok Value.none) :
    firstNonNoneLoop ms = .ok Option.none := by
  have := firstNonNoneLoop_append_skipped ms [] h
  simpa [firstNonNoneLoop] using this

/-- The rendered-members list is the `List.map` of the renderer. -/
theorem renderList_eq_map (ms : List TypeDesc) :
    renderList ms = ms.map render_type_name := by
  induction ms with
  | nil => simp [renderList]
  | cons a rest ih => simp [renderList, ih]

/-! ## The claims -/

/-- Claim C10: default synthesis applied to a `TypeAdapter` wrapping `t`
returns exactly the value default synthesis gives for `t` itself — the
adapter layer (`get_default` line 154-155 dispatching to
`get_model_default`, whose `build_dict` at lines 210-211 immediately
returns `get_default(model._type)`) is transparently unwrapped and
contributes nothing. -/
theorem claim_C10_adapter_transparent (t : TypeDesc) :
    get_default (.adapter t) = get_default t ∧
    get_model_default (.adapter t) = get_default t := by
  constructor <;> simp [get_default, get_model_default, build_dict]

/-- Claim C8: the synthesized default of any tuple-shaped type — whatever
its element list, including a fixed-arity `(str, int)` — is the empty
tuple `()`, never per-slot element defaults: `typing.Tuple[...]()` raises
`TypeError` (lib.py:182-183), and the fallback to the unparameterized
origin `tuple` (lib.py:184-186) constructs `()`. -/
theorem claim_C8_tuple_default_empty (elems : List TypeDesc) :
    get_default (.tupleT elems) = .ok (.tuple []) := by
  simp [get_default, tryCall, tupleOrigin]

/-- Claim C6: for every inner type `t`, the synthesized default of
`Optional[t]` — the union `t | NoneType` — is `None` (the
`is_optional_type` branch at lib.py:162-163 fires before the union loop),
with no construction attempt on `t`: the equation holds for arbitrary `t`,
including record types and classes whose construction would raise. -/
theorem claim_C6_optional_default_none (t : TypeDesc) :
    get_default (.unionT [t, .noneT]) = .ok Value.none := by
  have h : containsNoneType [t, .noneT] = true := by cases t <;> rfl
  simp [get_default, h]

/-- Claim C5: a union with no `NoneType` member (the spec's `Union`
descriptor; with a `NoneType` member the earlier `Optional` rule,
lib.py:114-117, takes precedence) renders as its members' renders joined
by `" | "`, in declared order, for any number of members
(lib.py:119-120). -/
theorem claim_C5_union_render (ms : List TypeDesc)
    (h : containsNoneType ms = false) :
    render_type_name (.unionT ms) = pyJoin " | " (ms.map render_type_name) := by
  rw [render_type_name.eq_def]
  simp [h, renderList_eq_map]

/-- Witness for C5 at `Union[int, str]`: the join equals
`render(int) + " | " + render(str)`. -/
theorem claim_C5_witness :
    render_type_name (.unionT [intCls, strCls])
      = render_type_name intCls ++ " | " ++ render_type_name strCls := by
  have h := claim_C5_union_render [intCls, strCls] (by rfl)
  simpa [pyJoin] using h

/-- Claim C2, amended: the top-level synthesis call never raises when its
input is a model class — every field gets exactly one entry, in declared
order, and a field whose synthesis raises gets `None` while its siblings
are unaffected (the per-field `try/except` of lib.py:214-220).  For a
`TypeAdapter` input, however, `build_dict` returns
`get_default(model._type)` with no protection (lib.py:210-211), so a
failure there propagates to the caller. -/
theorem claim_C2_amended (name : String) (fs : List Field) (t : TypeDesc) :
    get_model_default (.baseModel name fs)
      = .ok (.dict (fs.map (fun f => (f.name, catchToNone (fieldSynthesis f))))) ∧
    get_model_default (.adapter t) = get_default t := by
  constructor
  · simp [get_model_default, build_dict, buildFields_eq_map]
  · simp [get_model_default, build_dict]

/-- Counterexample to Claim C2 as stated: for a `TypeAdapter` input
wrapping a class whose zero-argument construction raises a non-`TypeError`
exception, `get_model_default` raises (the exception propagates out of the
top-level call instead of any field becoming `None`). -/
theorem claim_C2_counterexample :
    get_model_default (.adapter (.cls "Boom" (.error .otherError)))
      = .error .otherError := by
  simp [get_model_default, build_dict, get_default, tryCall]

/-- Claim C4, amended: synthesizing a default for an unstructured type
attempts its zero-argument construction (lib.py:182); on a `TypeError` —
and only on a `TypeError` (lib.py:183) — it falls back to the
unparameterized generic origin when the type is a parameterized generic,
and otherwise returns `None`; a construction failure with any other
exception propagates. -/
theorem claim_C4_amended (n : String) (v : Value) (o : TypeDesc)
    (args : List TypeDesc) (h : tryCall o = .error .typeError) :
    get_default (.cls n (.ok v)) = .ok v ∧
    get_default (.cls n (.error .typeError)) = .ok Value.none ∧
    get_default (.cls n (.error .otherError)) = .error .otherError ∧
    get_default (.genericAlias o args) = get_default o := by
  refine ⟨by simp [get_default, tryCall], by simp [get_default, tryCall],
    by simp [get_default, tryCall], ?_⟩
  simp [get_default, tryCall, h]

/-- Witness for the amended C4 at concrete inputs. -/
theorem claim_C4_witness :
    get_default (.cls "Boom" (.ok (.obj "Boom"))) = .ok (.obj "Boom") ∧
    get_default (.cls "Boom" (.error .typeError)) = .ok Value.none ∧
    get_default (.cls "Boom" (.error .otherError)) = .error .otherError ∧
    get_default (.genericAlias (.cls "Frozen" (.error .typeError)) [intCls])
      = get_default (.cls "Frozen" (.error .typeError)) :=
  claim_C4_amended "Boom" (.obj "Boom") (.cls "Frozen" (.error .typeError))
    [intCls] (by simp [tryCall])

/-- Counterexample to Claim C4 as stated: a zero-argument construction
that fails with an exception other than `TypeError` does not fall back and
does not yield `None` — it propagates. -/
theorem claim_C4_counterexample :
    get_default (.cls "Boom" (.error .otherError)) = .error .otherError ∧
    get_default (.cls "Boom" (.error .otherError)) ≠ .ok Value.none := by
  have h : get_default (.cls "Boom" (.error .otherError)) = .error .otherError := by
    simp [get_default, tryCall]
  exact ⟨h, by simp [h]⟩


/-- Claim C7: for a union with no `NoneType` member (with one, the
`Optional` rule of lib.py:162-163 takes precedence and the claim's loop is
never reached), `get_default` returns the default of the first member
whose computed default is not `None`; and when every member's default is
`None` — in particular when there are no members — the union's default is
`None` (lib.py:173-179). -/
theorem claim_C7_union_default :
    (∀ ms₁ (m : TypeDesc) ms₂ (v : Value),
      containsNoneType (ms₁ ++ m :: ms₂) = false →
      (∀ x ∈ ms₁, get_default x = .ok Value.none) →
      get_default m = .ok v → v ≠ Value.none →
      get_default (.unionT (ms₁ ++ m :: ms₂)) = .ok v) ∧
    (∀ ms, containsNoneType ms = false →
      (∀ x ∈ ms, get_default x = .ok Value.none) →
      get_default (.unionT ms) = .ok Value.none) := by
  constructor
  · intro ms₁ m ms₂ v hopt hskip hm hv
    have hall := firstNonNoneLoop_append_skipped ms₁ (m :: ms₂) hskip
    cases v
    all_goals first
      | exact absurd rfl hv
      | simp [get_default, hopt, hall, firstNonNoneLoop, hm]
  · intro ms hopt hall
    have h := firstNonNoneLoop_all_none ms hall
    simp [get_default, hopt, h]

/-- Witness for C7: in `Union[Literal[], int]` the first member's default
is `None` (an empty literal set), so the union's default is the second
member's `0`. -/
theorem claim_C7_witness :
    get_default (.unionT [.literalT [], intCls]) = .ok (.int 0) := by
  have h := claim_C7_union_default.1 [.literalT []] intCls [] (.int 0)
    (by decide)
    (by intro x hx; simp only [List.mem_singleton] at hx; subst hx
        simp [get_default])
    (by simp [get_default, intCls, tryCall])
    (by simp)
  simpa using h

/-- Claim C1, amended: a declared field default (one that is present and
not the undefined sentinel) is returned verbatim by `get_field_default`
(lib.py:195-197); at the document level this wins over structural
synthesis for every field whose annotation is not itself a `BaseModel`
subclass — for a nested-Record field, `build_dict` recurses structurally
before ever consulting the declared default (lib.py:215-218). -/
theorem claim_C1_amended (nm : String) (ann : Option TypeDesc) (v : Value)
    (hnr : ∀ m g, ann ≠ some (.baseModel m g)) :
    get_field_default (.mk nm ann (some v)) = .ok v ∧
    fieldSynthesis (.mk nm ann (some v)) = .ok v := by
  have h1 : get_field_default (.mk nm ann (some v)) = .ok v := by
    simp [get_field_default]
  refine ⟨h1, ?_⟩
  rcases ann with _ | d
  · simp [fieldSynthesis, h1]
  · cases d
    case baseModel m g => exact absurd rfl (hnr m g)
    all_goals simp [fieldSynthesis, get_field_default, Field.getDeclaredDefault]

/-- Witness for the amended C1: `b: int = 42` synthesizes to `42`. -/
theorem claim_C1_witness :
    get_field_default (.mk "b" (some intCls) (some (.int 42))) = .ok (.int 42) ∧
    fieldSynthesis (.mk "b" (some intCls) (some (.int 42))) = .ok (.int 42) :=
  claim_C1_amended "b" (some intCls) (.int 42)
    (by intro m g hh; simp [intCls] at hh)

/-- Counterexample to Claim C1 as stated: a field whose type is a nested
Record and which carries a declared default is synthesized structurally —
the result is the sub-document `{x: 0}`, not the declared default. -/
theorem claim_C1_counterexample :
    get_model_default (.baseModel "Outer"
        [.mk "inner"
          (some (.baseModel "Inner" [.mk "x" (some intCls) Option.none]))
          (some (.obj "InnerInstance"))])
      = .ok (.dict [("inner", .dict [("x", .int 0)])]) ∧
    Value.dict [("x", Value.int 0)] ≠ Value.obj "InnerInstance" := by
  constructor
  · simp [get_model_default, build_dict, buildFields, fieldSynthesis,
      get_field_default, Field.getDeclaredDefault, Field.name, catchToNone,
      get_default, tryCall, intCls]
  · simp

/-- Claim C3, amended: a `"missing"` failure with a non-empty location
whose first segment resolves to a top-level field gets
`" (expected type: S)"` appended to its message before the bracketed kind
tag, where `S` is the annotation's `__name__` attribute when present and
otherwise the annotation's `str()` (editor.py:110-114) — not
`render_type_name`; the two agree on plain classes and records but not in
general (a parameterized generic displays only its origin's name). -/
theorem claim_C3_amended (modelFields : List Field) (e : PyError) (l0 : Loc)
    (rest : List Loc) (f : Field)
    (hk : e.typ = "missing") (hl : e.loc = l0 :: rest)
    (hf : lookupLoc modelFields l0 = some f) :
    formatLine modelFields e
      = "- " ++ pyJoin "." (e.loc.map locSegStr) ++ ": "
          ++ (e.msg ++ " (expected type: " ++ expectedTypeDisplay f.annOf ++ ")")
          ++ " [" ++ e.typ ++ "]" := by
  simp [formatLine, hl, hk, hf]

/-- Witness for the amended C3: a missing `age: int` field is enriched
with `(expected type: int)`. -/
theorem claim_C3_witness :
    formatLine [Field.mk "age" (some intCls) Option.none]
        ⟨[.field "age"], "Field required", "missing"⟩
      = "- age: Field required (expected type: int) [missing]" := by
  have h := claim_C3_amended [Field.mk "age" (some intCls) Option.none]
    ⟨[.field "age"], "Field required", "missing"⟩ (.field "age") []
    (Field.mk "age" (some intCls) Option.none) rfl rfl rfl
  simpa [pyJoin, locSegStr, expectedTypeDisplay, hasDunderName, dunderName, intCls]
    using h

/-- Counterexample to Claim C3 as stated: for a missing field of type
`list[int]`, the formatted line shows `(expected type: list)` — the
annotation's `__name__`, which a parameterized generic forwards to its
origin — while the Type Renderer produces `"list[int]"`; the line does not
contain the renderer's string. -/
theorem claim_C3_counterexample :
    format_validation_errors
        (.baseModel "Cfg"
          [.mk "xs" (some (.genericAlias listCls [intCls])) Option.none])
        [⟨[.field "xs"], "Field required", "missing"⟩]
      = "- xs: Field required (expected type: list) [missing]" ∧
    render_type_name (.genericAlias listCls [intCls]) = "list[int]" ∧
    format_validation_errors
        (.baseModel "Cfg"
          [.mk "xs" (some (.genericAlias listCls [intCls])) Option.none])
        [⟨[.field "xs"], "Field required", "missing"⟩]
      ≠ "- xs: Field required (expected type: list[int]) [missing]" := by
  refine ⟨by decide, ?_, by decide⟩
  simp [render_type_name, renderList, listCls, intCls, pyJoin]

/-- Claim C9: the formatter emits exactly one line per failure, in the
order received (`lines` grows by one `append` per failure and is joined
with newlines, editor.py:101-116); every line has the shape
`"- <dotted loc>: <message> [<kind>]"`; and a `"missing"` failure whose
first location segment does not resolve to a top-level field is emitted
unenriched — no failure is dropped and no exception is raised (the
formatter is a total function). -/
theorem claim_C9_formatter_shape (model : TypeDesc) (errs : List PyError) :
    (buildLines (dunderFields model) errs
        = errs.map (formatLine (dunderFields model)) ∧
     format_validation_errors model errs
        = pyJoin "\n" (errs.map (formatLine (dunderFields model)))) ∧
    (∀ e : PyError, ∃ m : String,
       formatLine (dunderFields model) e
         = "- " ++ pyJoin "." (e.loc.map locSegStr) ++ ": " ++ m
             ++ " [" ++ e.typ ++ "]") ∧
    (∀ (e : PyError) (l0 : Loc) (rest : List Loc),
       e.typ = "missing" → e.loc = l0 :: rest →
       lookupLoc (dunderFields model) l0 = Option.none →
       formatLine (dunderFields model) e
         = "- " ++ pyJoin "." (e.loc.map locSegStr) ++ ": " ++ e.msg
             ++ " [" ++ e.typ ++ "]") := by
  have hmap : buildLines (dunderFields model) errs
      = errs.map (formatLine (dunderFields model)) := by
    induction errs with
    | nil => simp [buildLines]
    | cons e rest ih => simp [buildLines, ih]
  refine ⟨⟨hmap, ?_⟩, ?_, ?_⟩
  · show pyJoin "\n" (buildLines (dunderFields model) errs) = _
    rw [hmap]
  · intro e
    rcases he : e.loc with _ | ⟨l0, rest⟩
    · exact ⟨e.msg, by simp [formatLine, he]⟩
    · by_cases hk : e.typ = "missing"
      · rcases hf : lookupLoc (dunderFields model) l0 with _ | f
        · exact ⟨e.msg, by simp [formatLine, he, hk, hf]⟩
        · exact ⟨e.msg ++ " (expected type: " ++ expectedTypeDisplay f.annOf ++ ")",
            by simp [formatLine, he, hk, hf]⟩
      · exact ⟨e.msg, by simp [formatLine, he, hk]⟩
  · intro e l0 rest hk hl hnone
    simp [formatLine, hl, hk, hnone]

/-- Witness for C9: a `"missing"` failure at an unresolvable location is
emitted unenriched, with dotted location, message and kind tag. -/
theorem claim_C9_witness :
    formatLine [Field.mk "age" (some intCls) Option.none]
        ⟨[.field "nope"], "Field required", "missing"⟩
      = "- nope: Field required [missing]" := by
  have h := (claim_C9_formatter_shape
      (.baseModel "M" [Field.mk "age" (some intCls) Option.none])
      []).2.2
    ⟨[.field "nope"], "Field required", "missing"⟩ (.field "nope") []
    rfl rfl rfl
  simpa [dunderFields, pyJoin, locSegStr] using h

end Confantic
